import Mathlib

/-!
Chat widget controller (`static/chat.js`).

A shallow embedding of the browser-side chat widget: the chat log, the
username and message fields, the send control, the username kept in
`localStorage`, and the submit handler with its single retry.

Modelling conventions.

* JavaScript strings are Lean `String`s (sequences of code points; lone
  surrogates are not represented).
* The chat log is the list of children of `#chatbox`, in document order.
  `document.getElementById('typing-ind')` is a search of that list: the page
  markup is assumed to hold no other element with that id.
* `chatbox.scrollTop = chatbox.scrollHeight` and `e.preventDefault()` touch
  no modelled state and are left out.
* A handler is the sequence of the operations it performs (`Step`), each with
  its effect on the widget (`Step.apply`); the state at any point of a run is
  the state after a prefix of that sequence (`exec`).
* The outcome of the `i`-th `fetch` of a submission is given by the
  environment (`Net`).
-/

namespace Chat

/-! ## Strings -/

/-- The code points removed by `String.prototype.trim`: ECMAScript
`WhiteSpace` (TAB, VT, FF, SP, NBSP, ZWNBSP and the Unicode space separators)
and `LineTerminator` (LF, CR, LS, PS). -/
def isJSWhiteSpace (c : Char) : Bool :=
  let n := c.toNat
  n = 0x09 || n = 0x0A || n = 0x0B || n = 0x0C || n = 0x0D || n = 0x20 ||
  n = 0xA0 || n = 0x1680 || (0x2000 ≤ n && n ≤ 0x200A) || n = 0x2028 ||
  n = 0x2029 || n = 0x202F || n = 0x205F || n = 0x3000 || n = 0xFEFF

/-- `String.prototype.trim` on a list of code points. -/
def trimChars (cs : List Char) : List Char :=
  (cs.dropWhile isJSWhiteSpace).rdropWhile isJSWhiteSpace

/-- `s.trim()`. -/
def trim (s : String) : String := ⟨trimChars s.data⟩

/-- JavaScript truthiness of a string: non-empty. -/
def truthyStr (s : String) : Bool := !s.data.isEmpty

/-- A thrown JavaScript error, by its message. -/
abbrev JSError := String

/-! ## JSON values -/

/-- A value produced by `res.json()`. A number is given by the two things
the handler can observe of it: whether it is zero (`0` and `-0`, the only
falsy numbers `JSON.parse` produces) and the string that the built-in
`Number::toString` gives for it (`1`, `1.5`, `1e+21`, `Infinity`). An object
is the list of its own properties, a later entry for a key overriding an
earlier one as in `JSON.parse`. -/
inductive JSON where
  | null : JSON
  | bool (b : Bool) : JSON
  | num (isZero : Bool) (text : String) : JSON
  | str (s : String) : JSON
  | arr (xs : List JSON) : JSON
  | obj (kvs : List (String × JSON)) : JSON

/-- JavaScript `ToBoolean`. -/
def JSON.truthy : JSON → Bool
  | .null => false
  | .bool b => b
  | .num isZero _ => !isZero
  | .str s => truthyStr s
  | .arr _ => true
  | .obj _ => true

/-- The last value bound to `key` in a property list. -/
def lookupLast (key : String) : List (String × JSON) → Option JSON
  | [] => none
  | (k, v) :: rest =>
    match lookupLast key rest with
    | some v' => some v'
    | none => if k = key then some v else none

/-- The property read `data.reply` on a truthy value: the own property of an
object, `undefined` (`none`) when absent or when `data` is a primitive or an
array. -/
def JSON.reply : JSON → Option JSON
  | .obj kvs => lookupLast "reply" kvs
  | _ => none

/-- Whether a value is `null`. -/
def JSON.isNull : JSON → Bool
  | .null => true
  | _ => false

mutual
/-- JavaScript `ToString` of a parsed value, the conversion applied when a
value other than `null` is assigned to `textContent`. An object made by
`JSON.parse` converts through `Object.prototype.toString`, unless it has an
own property named `toString`: that property is never callable, the
inherited `valueOf` returns the object itself, and the conversion throws a
`TypeError`. An array converts through `Array.prototype.join`. -/
def JSON.toText : JSON → Except JSError String
  | .null => .ok "null"
  | .bool b => .ok (if b then "true" else "false")
  | .num _ text => .ok text
  | .str s => .ok s
  | .arr xs => JSON.joinText xs
  | .obj kvs =>
    if kvs.any (fun kv => kv.1 == "toString") then
      .error "TypeError: Cannot convert object to primitive value"
    else .ok "[object Object]"
/-- `Array.prototype.join(',')`: the elements are converted from left to
right, a `null` element renders as the empty string, and the first
conversion that throws ends the join. -/
def JSON.joinText : List JSON → Except JSError String
  | [] => .ok ""
  | x :: rest =>
    match (if x.isNull then .ok "" else JSON.toText x) with
    | .error err => .error err
    | .ok first =>
      if rest.isEmpty then .ok first
      else
        match JSON.joinText rest with
        | .error err => .error err
        | .ok others => .ok (first ++ "," ++ others)
end

/-- The text of the bot message for a successful response:
`(data && data.reply) ? data.reply : '(tidak ada jawaban)'`, converted to a
string by the assignment `div.textContent = text` in `addMsg`. The result is
the error thrown when that conversion throws; the assignment comes before
`appendChild`, so in that case `addMsg` appends nothing. -/
def replyText (data : JSON) : Except JSError String :=
  if data.truthy then
    match data.reply with
    | some r => if r.truthy then r.toText else .ok "(tidak ada jawaban)"
    | none => .ok "(tidak ada jawaban)"
  else .ok "(tidak ada jawaban)"

/-- One hexadecimal digit, lower case. -/
def hexDigit (n : Nat) : Char :=
  if n < 10 then Char.ofNat (48 + n) else Char.ofNat (87 + n)

/-- The escape of one code point inside a JSON string literal
(`QuoteJSONString`). -/
def quoteChar (c : Char) : List Char :=
  let n := c.toNat
  if n = 0x08 then ['\\', 'b']
  else if n = 0x09 then ['\\', 't']
  else if n = 0x0A then ['\\', 'n']
  else if n = 0x0C then ['\\', 'f']
  else if n = 0x0D then ['\\', 'r']
  else if n = 0x22 then ['\\', '"']
  else if n = 0x5C then ['\\', '\\']
  else if n < 0x20 then ['\\', 'u', '0', '0', hexDigit (n / 16), hexDigit (n % 16)]
  else [c]

/-- `JSON.stringify(s)` for a string `s`. -/
def quoteJSON (s : String) : String :=
  ⟨'"' :: (s.data.flatMap quoteChar ++ ['"'])⟩

/-- `JSON.stringify({ text, username })`. -/
def stringifyBody (text username : String) : String :=
  "\x7b\"text\":" ++ quoteJSON text ++ ",\"username\":" ++ quoteJSON username ++ "\x7d"

/-! ## The page -/

/-- A child of `#chatbox`. An element without an id has `id = ""`. -/
structure Elem where
  id : String
  className : String
  textContent : String
  deriving DecidableEq, Repr

/-- The send control: its `disabled` flag, its label (`textContent`) and
the saved label `dataset._old` (`none` when the attribute is absent). -/
structure Button where
  disabled : Bool
  textContent : String
  dataOld : Option String
  deriving DecidableEq, Repr

/-- The state of the widget. `submitBtn` is `none` when the form holds no
button (`form?.querySelector('button')` is `null`). -/
structure Widget where
  chatbox : List Elem
  uname : String
  msgInput : String
  submitBtn : Option Button
  msgFocused : Bool
  deriving DecidableEq, Repr

/-- Whether an element is the typing indicator. -/
def isTyping (e : Elem) : Bool := e.id == "typing-ind"

/-- The number of typing indicators in a chat log. -/
def typingCount (log : List Elem) : Nat := log.countP isTyping

/-- `addMsg(text, who)`: append a `div` with class `chatmsg who`. -/
def addMsg (text : String) (who : String) (w : Widget) : Widget :=
  { w with chatbox := w.chatbox ++ [⟨"", "chatmsg " ++ who, text⟩] }

/-- `setTyping(on)`. -/
def setTyping (isOn : Bool) (w : Widget) : Widget :=
  if isOn then
    if (w.chatbox.find? isTyping).isNone then
      { w with chatbox := w.chatbox ++ [⟨"typing-ind", "chatmsg bot", "… mengetik"⟩] }
    else w
  else
    match w.chatbox.find? isTyping with
    | some _ => { w with chatbox := w.chatbox.eraseP isTyping }
    | none => w

/-- `setBusy(busy)`. -/
def setBusy (busy : Bool) (w : Widget) : Widget :=
  match w.submitBtn with
  | none => w
  | some b =>
    let b1 : Button := { b with disabled := busy }
    if busy then
      let b2 : Button := { b1 with dataOld := some b1.textContent }
      { w with submitBtn := some { b2 with textContent := "Mengirim…" } }
    else
      match b1.dataOld with
      | some old =>
        if truthyStr old then
          { w with submitBtn := some { b1 with textContent := old, dataOld := none } }
        else { w with submitBtn := some b1 }
      | none => { w with submitBtn := some b1 }

/-! ## The network -/

/-- The argument of `fetch`. -/
structure Request where
  url : String
  method : String
  headers : List (String × String)
  body : String
  deriving DecidableEq, Repr

/-- A response received from the server: the status line and the outcomes
of reading the body with `res.text()` and with `res.json()` (either may
reject). -/
structure Response where
  status : Nat
  statusText : String
  text : Except JSError String
  json : Except JSError JSON

/-- `res.ok`: the status is in the range 200 to 299. -/
def Response.ok (res : Response) : Bool := 200 ≤ res.status && res.status ≤ 299

/-- The outcome of one `fetch` call: the promise rejects (network-level
failure) or resolves with a response. -/
inductive FetchResult where
  | rejected (err : JSError) : FetchResult
  | response (res : Response) : FetchResult

/-- The environment: the outcome of the `i`-th request of a submission. -/
abbrev Net := Nat → Request → FetchResult

/-- The request built by `sendOnce`. -/
def chatRequest (text username : String) : Request :=
  { url := "/api/chat"
    method := "POST"
    headers := [("Content-Type", "application/json")]
    body := stringifyBody text username }

/-- The function `sendOnce`, as its `i`-th call of a submission: the parsed
body, or the error thrown. -/
def sendOnce (net : Net) (i : Nat) (text username : String) : Except JSError JSON :=
  match net i (chatRequest text username) with
  | .rejected err => .error err
  | .response res =>
    if !res.ok then
      let txt := match res.text with
        | .ok t => t
        | .error _ => ""
      .error ("HTTP " ++ toString res.status ++ " " ++ res.statusText ++
        (if truthyStr txt then " - " ++ txt else ""))
    else res.json

/-! ## The submit handler -/

/-- The operations a handler performs. -/
inductive Step where
  | addMsg (text who : String) : Step
  | setMsgValue (v : String) : Step
  | setBusy (busy : Bool) : Step
  | setTyping (isOn : Bool) : Step
  | fetch (req : Request) : Step
  | consoleError (err : JSError) : Step
  | focusMsg : Step
  deriving DecidableEq, Repr

/-- The effect of one operation on the widget. Issuing a request and
writing to the console leave the widget as it is. -/
def Step.apply (s : Step) (w : Widget) : Widget :=
  match s with
  | .addMsg text who => Chat.addMsg text who w
  | .setMsgValue v => { w with msgInput := v }
  | .setBusy busy => Chat.setBusy busy w
  | .setTyping isOn => Chat.setTyping isOn w
  | .fetch _ => w
  | .consoleError _ => w
  | .focusMsg => { w with msgFocused := true }

/-- The state after performing a sequence of operations. -/
def exec (steps : List Step) (w : Widget) : Widget :=
  steps.foldl (fun st s => s.apply st) w

/-- The username sent with a submission: `uname.value.trim() || 'web-user'`. -/
def resolvedUsername (w : Widget) : String :=
  if truthyStr (trim w.uname) then trim w.uname else "web-user"

/-- The operations of the `submit` listener, in order, for network `net` and
the widget state `w` at the time of the event. When the conversion of the
reply to text throws inside `addMsg` (line 101, after `setTyping(false)` at
line 100), the `catch` block of lines 102 to 105 runs. -/
def submitSteps (net : Net) (w : Widget) : List Step :=
  let text := trim w.msgInput
  if !truthyStr text then []
  else
    let username := resolvedUsername w
    let req := chatRequest text username
    [.addMsg text "you", .setMsgValue "", .setBusy true, .setTyping true] ++
    (match sendOnce net 0 text username with
     | .ok data =>
       match replyText data with
       | .ok reply => [.fetch req, .setTyping false, .addMsg reply "bot"]
       | .error err =>
         [.fetch req, .setTyping false, .setTyping false,
          .addMsg "Gagal menghubungi server. Coba lagi sebentar ya." "bot",
          .consoleError err]
     | .error _ =>
       match sendOnce net 1 text username with
       | .ok data =>
         match replyText data with
         | .ok reply => [.fetch req, .fetch req, .setTyping false, .addMsg reply "bot"]
         | .error err =>
           [.fetch req, .fetch req, .setTyping false, .setTyping false,
            .addMsg "Gagal menghubungi server. Coba lagi sebentar ya." "bot",
            .consoleError err]
       | .error err =>
         [.fetch req, .fetch req, .setTyping false,
          .addMsg "Gagal menghubungi server. Coba lagi sebentar ya." "bot",
          .consoleError err]) ++
    [.setBusy false, .focusMsg]

/-- The widget after the `submit` listener has run to its end. -/
def submitHandler (net : Net) (w : Widget) : Widget :=
  exec (submitSteps net w) w

/-- Whether an operation issues a request. -/
def Step.isFetch : Step → Bool
  | .fetch _ => true
  | _ => false

/-- Whether an operation appends a bot message. -/
def Step.isBotMsg : Step → Bool
  | .addMsg _ who => who == "bot"
  | _ => false

/-- The requests issued by a sequence of operations, in order. -/
def requests : List Step → List Request
  | [] => []
  | .fetch req :: rest => req :: requests rest
  | _ :: rest => requests rest

/-- A request attempt fails: the fetch rejects, the status is not a success
status, or the body does not parse as JSON. -/
def FetchResult.failed : FetchResult → Bool
  | .rejected _ => true
  | .response res => !res.ok || (match res.json with | .ok _ => false | .error _ => true)

/-- A request attempt succeeds with parsed body `d`. -/
def FetchResult.succeedsWith (r : FetchResult) (d : JSON) : Prop :=
  match r with
  | .rejected _ => False
  | .response res => res.ok = true ∧ res.json = .ok d

/-! ## The stored username -/

/-- The browser's `localStorage`: its items, and whether reading or writing
currently throws (storage disabled, quota exceeded). -/
structure LocalStorage where
  items : List (String × String)
  getFault : Option JSError
  setFault : Option JSError

/-- `localStorage.getItem(key)`: the value, `null` (`none`) when absent. -/
def LocalStorage.getItem (ls : LocalStorage) (key : String) : Except JSError (Option String) :=
  match ls.getFault with
  | some err => .error err
  | none => .ok (ls.items.lookup key)

/-- `localStorage.setItem(key, value)`. -/
def LocalStorage.setItem (ls : LocalStorage) (key value : String) : Except JSError LocalStorage :=
  match ls.setFault with
  | some err => .error err
  | none => .ok { ls with items := (key, value) :: ls.items.filter (fun kv => kv.1 != key) }

/-- The initialization block: load the saved name, then focus the message
field. -/
def init (ls : LocalStorage) (w : Widget) : Except JSError Widget := do
  let w1 ←
    try
      let savedName ← ls.getItem "sebayu_name"
      match savedName with
      | some name => pure (if truthyStr name then { w with uname := name } else w)
      | none => pure w
    catch _ => pure w
  pure { w1 with msgFocused := true }

/-- The `change` listener of the username field; the result is the storage
afterwards. -/
def changeHandler (ls : LocalStorage) (w : Widget) : Except JSError LocalStorage := do
  try
    ls.setItem "sebayu_name" (trim w.uname)
  catch _ => pure ls

/-- The `keydown` listener of the message field. -/
def keydownHandler (key : String) (w : Widget) : Widget :=
  if key = "Escape" then { w with msgInput := "" } else w

/-! ## Sample states and networks -/

/-- An idle widget with an empty log and a send control labelled `Kirim`. -/
def idleWidget (uname msgInput : String) : Widget :=
  { chatbox := [], uname := uname, msgInput := msgInput,
    submitBtn := some ⟨false, "Kirim", none⟩, msgFocused := false }

/-- A server that answers every request with `reply`. -/
def netReply (reply : String) : Net :=
  fun _ _ => .response ⟨200, "OK", .ok "", .ok (.obj [("reply", .str reply)])⟩

/-- A network on which every request is refused. -/
def netDown : Net := fun _ _ => .rejected "Failed to fetch"

/-- A server that answers the first request with status 500 and every later
one with `reply`. -/
def netFlaky (reply : String) : Net :=
  fun i _ =>
    if i = 0 then .response ⟨500, "Internal Server Error", .ok "oops", .error "Unexpected token"⟩
    else .response ⟨200, "OK", .ok "", .ok (.obj [("reply", .str reply)])⟩

/-- A server that answers the first request with status 500 and every later
one with the body `d`. -/
def netRetryBody (d : JSON) : Net :=
  fun i _ =>
    if i = 0 then .response ⟨500, "Internal Server Error", .ok "oops", .error "Unexpected token"⟩
    else .response ⟨200, "OK", .ok "", .ok d⟩

/-- An idle widget with an empty log whose send control carries `label`. -/
def labelledWidget (label msgInput : String) : Widget :=
  { chatbox := [], uname := "", msgInput := msgInput,
    submitBtn := some ⟨false, label, none⟩, msgFocused := false }

/-- The value of the send control's `disabled` flag, when there is a send
control. -/
def disabledFlag (w : Widget) : Option Bool := w.submitBtn.map Button.disabled

/-- A working `localStorage` holding `items`. -/
def workingStorage (items : List (String × String)) : LocalStorage :=
  { items := items, getFault := none, setFault := none }

/-- A `localStorage` that holds the name `Bob` and has no room left: reading
works, writing throws. -/
def fullStorage : LocalStorage :=
  { items := [("sebayu_name", "Bob")], getFault := none, setFault := some "QuotaExceededError" }

/-- The username field after the `change` listener has run on widget `w`
and the page has then been loaded afresh as `w0`. -/
def unameAfterReload (ls : LocalStorage) (w w0 : Widget) : Except JSError String := do
  let ls1 ← changeHandler ls w
  let w1 ← init ls1 w0
  pure w1.uname

/-! ## Auxiliary facts -/

theorem truthyStr_eq_false_iff (s : String) : truthyStr s = false ↔ s = "" := by
  cases s with
  | mk cs => cases cs <;> simp [truthyStr, String.ext_iff]

theorem truthyStr_eq_true_iff (s : String) : truthyStr s = true ↔ s ≠ "" := by
  rw [Ne, ← truthyStr_eq_false_iff]; cases truthyStr s <;> simp

theorem sendOnce_error_of_failed (net : Net) (i : Nat) (text username : String)
    (h : (net i (chatRequest text username)).failed = true) :
    ∃ err, sendOnce net i text username = .error err := by
  unfold sendOnce
  cases hr : net i (chatRequest text username) with
  | rejected err => exact ⟨err, rfl⟩
  | response res =>
    rw [hr] at h
    cases hok : res.ok with
    | false => simp [hok]
    | true =>
      cases hj : res.json with
      | ok d => simp [FetchResult.failed, hok, hj] at h
      | error e => simp [hok, hj]

theorem sendOnce_ok_of_succeedsWith (net : Net) (i : Nat) (text username : String) (d : JSON)
    (h : (net i (chatRequest text username)).succeedsWith d) :
    sendOnce net i text username = .ok d := by
  unfold sendOnce
  cases hr : net i (chatRequest text username) with
  | rejected err => rw [hr] at h; exact h.elim
  | response res =>
    rw [hr] at h
    obtain ⟨hok, hj⟩ := h
    simp [hok, hj]

@[simp] theorem exec_nil (w : Widget) : exec [] w = w := rfl

@[simp] theorem exec_cons (s : Step) (rest : List Step) (w : Widget) :
    exec (s :: rest) w = exec rest (s.apply w) := rfl

@[simp] theorem setBusy_chatbox (busy : Bool) (w : Widget) :
    (setBusy busy w).chatbox = w.chatbox := by
  unfold setBusy
  cases w.submitBtn with
  | none => rfl
  | some b =>
    cases busy with
    | true => rfl
    | false =>
      cases hb : b.dataOld with
      | none => simp [hb]
      | some old => cases ht : truthyStr old <;> simp [hb, ht]

@[simp] theorem setBusy_msgInput (busy : Bool) (w : Widget) :
    (setBusy busy w).msgInput = w.msgInput := by
  unfold setBusy
  cases w.submitBtn with
  | none => rfl
  | some b =>
    cases busy with
    | true => rfl
    | false =>
      cases hb : b.dataOld with
      | none => simp [hb]
      | some old => cases ht : truthyStr old <;> simp [hb, ht]

@[simp] theorem setTyping_msgInput (isOn : Bool) (w : Widget) :
    (setTyping isOn w).msgInput = w.msgInput := by
  unfold setTyping
  cases isOn with
  | true => simp only [if_true]; split <;> rfl
  | false => simp only [Bool.false_eq_true, if_false]; split <;> rfl

@[simp] theorem setTyping_submitBtn (isOn : Bool) (w : Widget) :
    (setTyping isOn w).submitBtn = w.submitBtn := by
  unfold setTyping
  cases isOn with
  | true => simp only [if_true]; split <;> rfl
  | false => simp only [Bool.false_eq_true, if_false]; split <;> rfl

/-- The typing indicator element inserted by `setTyping(true)`. -/
theorem setTyping_true_chatbox (w : Widget) :
    (setTyping true w).chatbox =
      if (w.chatbox.find? isTyping).isNone
      then w.chatbox ++ [⟨"typing-ind", "chatmsg bot", "… mengetik"⟩] else w.chatbox := by
  unfold setTyping
  simp only [if_true]
  split <;> rfl

theorem setTyping_false_chatbox (w : Widget) :
    (setTyping false w).chatbox = w.chatbox.eraseP isTyping := by
  unfold setTyping
  simp only [Bool.false_eq_true, if_false]
  split
  · rfl
  · next h =>
    rw [List.find?_eq_none] at h
    rw [List.eraseP_of_forall_not]
    intro a ha
    simpa using h a ha

theorem isTyping_indicator : isTyping ⟨"typing-ind", "chatmsg bot", "… mengetik"⟩ = true := by
  decide

/-- Showing and then hiding the indicator after a user message leaves the
earlier log without its first indicator, followed by the user message. -/
theorem chatbox_show_hide (w : Widget) (log : List Elem) (e : Elem)
    (hw : w.chatbox = log ++ [e]) (he : isTyping e = false) :
    (setTyping false (setTyping true w)).chatbox = log.eraseP isTyping ++ [e] := by
  rw [setTyping_false_chatbox, setTyping_true_chatbox, hw]
  by_cases h : ∃ a ∈ log, isTyping a = true
  · obtain ⟨a, ha, hta⟩ := h
    have hfind : ((log ++ [e]).find? isTyping).isNone = false := by
      rw [← Bool.not_eq_true, Option.isNone_iff_eq_none, List.find?_eq_none]
      intro hall
      exact hall a (List.mem_append_left _ ha) hta
    rw [hfind]
    simp only [Bool.false_eq_true, if_false]
    exact List.eraseP_append_left hta _ ha
  · have hno : ∀ a ∈ log, ¬ isTyping a = true := fun a ha hta => h ⟨a, ha, hta⟩
    have hno2 : ∀ a ∈ log ++ [e], ¬ isTyping a = true := by
      intro a ha
      rcases List.mem_append.1 ha with h1 | h1
      · exact hno a h1
      · rw [List.mem_singleton] at h1; subst h1; simp [he]
    have hfind : ((log ++ [e]).find? isTyping).isNone = true := by
      rw [Option.isNone_iff_eq_none, List.find?_eq_none]
      exact hno2
    rw [hfind]
    simp only [if_true]
    rw [List.eraseP_append_right _ hno2, List.eraseP_of_forall_not hno]
    simp [List.eraseP, isTyping_indicator]

theorem submitSteps_blank (net : Net) (w : Widget) (h : trim w.msgInput = "") :
    submitSteps net w = [] := by
  simp [submitSteps, (truthyStr_eq_false_iff _).2 h]

theorem submitSteps_first_ok (net : Net) (w : Widget) (d : JSON) (s : String)
    (h : trim w.msgInput ≠ "")
    (h0 : sendOnce net 0 (trim w.msgInput) (resolvedUsername w) = .ok d) (hr : replyText d = .ok s) :
    submitSteps net w =
      [.addMsg (trim w.msgInput) "you", .setMsgValue "", .setBusy true, .setTyping true,
       .fetch (chatRequest (trim w.msgInput) (resolvedUsername w)),
       .setTyping false, .addMsg s "bot", .setBusy false, .focusMsg] := by
  simp [submitSteps, (truthyStr_eq_true_iff _).2 h, h0, hr]

theorem submitSteps_first_thrown (net : Net) (w : Widget) (d : JSON) (e : JSError)
    (h : trim w.msgInput ≠ "")
    (h0 : sendOnce net 0 (trim w.msgInput) (resolvedUsername w) = .ok d) (hr : replyText d = .error e) :
    submitSteps net w =
      [.addMsg (trim w.msgInput) "you", .setMsgValue "", .setBusy true, .setTyping true,
       .fetch (chatRequest (trim w.msgInput) (resolvedUsername w)),
       .setTyping false, .setTyping false,
       .addMsg "Gagal menghubungi server. Coba lagi sebentar ya." "bot",
       .consoleError e, .setBusy false, .focusMsg] := by
  simp [submitSteps, (truthyStr_eq_true_iff _).2 h, h0, hr]

theorem submitSteps_retry_ok (net : Net) (w : Widget) (e0 : JSError) (d : JSON) (s : String)
    (h : trim w.msgInput ≠ "")
    (h0 : sendOnce net 0 (trim w.msgInput) (resolvedUsername w) = .error e0)
    (h1 : sendOnce net 1 (trim w.msgInput) (resolvedUsername w) = .ok d) (hr : replyText d = .ok s) :
    submitSteps net w =
      [.addMsg (trim w.msgInput) "you", .setMsgValue "", .setBusy true, .setTyping true,
       .fetch (chatRequest (trim w.msgInput) (resolvedUsername w)),
       .fetch (chatRequest (trim w.msgInput) (resolvedUsername w)),
       .setTyping false, .addMsg s "bot", .setBusy false, .focusMsg] := by
  simp [submitSteps, (truthyStr_eq_true_iff _).2 h, h0, h1, hr]

theorem submitSteps_retry_thrown (net : Net) (w : Widget) (e0 : JSError) (d : JSON)
    (e : JSError) (h : trim w.msgInput ≠ "")
    (h0 : sendOnce net 0 (trim w.msgInput) (resolvedUsername w) = .error e0)
    (h1 : sendOnce net 1 (trim w.msgInput) (resolvedUsername w) = .ok d) (hr : replyText d = .error e) :
    submitSteps net w =
      [.addMsg (trim w.msgInput) "you", .setMsgValue "", .setBusy true, .setTyping true,
       .fetch (chatRequest (trim w.msgInput) (resolvedUsername w)),
       .fetch (chatRequest (trim w.msgInput) (resolvedUsername w)),
       .setTyping false, .setTyping false,
       .addMsg "Gagal menghubungi server. Coba lagi sebentar ya." "bot",
       .consoleError e, .setBusy false, .focusMsg] := by
  simp [submitSteps, (truthyStr_eq_true_iff _).2 h, h0, h1, hr]

theorem submitSteps_both_fail (net : Net) (w : Widget) (e0 e : JSError)
    (h : trim w.msgInput ≠ "")
    (h0 : sendOnce net 0 (trim w.msgInput) (resolvedUsername w) = .error e0)
    (h1 : sendOnce net 1 (trim w.msgInput) (resolvedUsername w) = .error e) :
    submitSteps net w =
      [.addMsg (trim w.msgInput) "you", .setMsgValue "", .setBusy true, .setTyping true,
       .fetch (chatRequest (trim w.msgInput) (resolvedUsername w)),
       .fetch (chatRequest (trim w.msgInput) (resolvedUsername w)),
       .setTyping false,
       .addMsg "Gagal menghubungi server. Coba lagi sebentar ya." "bot",
       .consoleError e, .setBusy false, .focusMsg] := by
  simp [submitSteps, (truthyStr_eq_true_iff _).2 h, h0, h1]

/-- The five ways a submission with non-empty text can run: success at the
first attempt or at the retry, each with the reply rendered or with the
rendering throwing, and failure of both attempts. -/
theorem submitSteps_cases (net : Net) (w : Widget) (h : trim w.msgInput ≠ "") :
    (∃ s, submitSteps net w =
      [.addMsg (trim w.msgInput) "you", .setMsgValue "", .setBusy true, .setTyping true,
       .fetch (chatRequest (trim w.msgInput) (resolvedUsername w)),
       .setTyping false, .addMsg s "bot", .setBusy false, .focusMsg]) ∨
    (∃ e, submitSteps net w =
      [.addMsg (trim w.msgInput) "you", .setMsgValue "", .setBusy true, .setTyping true,
       .fetch (chatRequest (trim w.msgInput) (resolvedUsername w)),
       .setTyping false, .setTyping false,
       .addMsg "Gagal menghubungi server. Coba lagi sebentar ya." "bot",
       .consoleError e, .setBusy false, .focusMsg]) ∨
    (∃ s, submitSteps net w =
      [.addMsg (trim w.msgInput) "you", .setMsgValue "", .setBusy true, .setTyping true,
       .fetch (chatRequest (trim w.msgInput) (resolvedUsername w)),
       .fetch (chatRequest (trim w.msgInput) (resolvedUsername w)),
       .setTyping false, .addMsg s "bot", .setBusy false, .focusMsg]) ∨
    (∃ e, submitSteps net w =
      [.addMsg (trim w.msgInput) "you", .setMsgValue "", .setBusy true, .setTyping true,
       .fetch (chatRequest (trim w.msgInput) (resolvedUsername w)),
       .fetch (chatRequest (trim w.msgInput) (resolvedUsername w)),
       .setTyping false, .setTyping false,
       .addMsg "Gagal menghubungi server. Coba lagi sebentar ya." "bot",
       .consoleError e, .setBusy false, .focusMsg]) ∨
    (∃ e, submitSteps net w =
      [.addMsg (trim w.msgInput) "you", .setMsgValue "", .setBusy true, .setTyping true,
       .fetch (chatRequest (trim w.msgInput) (resolvedUsername w)),
       .fetch (chatRequest (trim w.msgInput) (resolvedUsername w)),
       .setTyping false,
       .addMsg "Gagal menghubungi server. Coba lagi sebentar ya." "bot",
       .consoleError e, .setBusy false, .focusMsg]) := by
  cases h0 : sendOnce net 0 (trim w.msgInput) (resolvedUsername w) with
  | ok d =>
    cases hr : replyText d with
    | ok s => exact Or.inl ⟨s, submitSteps_first_ok net w d s h h0 hr⟩
    | error e => exact Or.inr (Or.inl ⟨e, submitSteps_first_thrown net w d e h h0 hr⟩)
  | error e0 =>
    cases h1 : sendOnce net 1 (trim w.msgInput) (resolvedUsername w) with
    | ok d =>
      cases hr : replyText d with
      | ok s => exact Or.inr (Or.inr (Or.inl ⟨s, submitSteps_retry_ok net w e0 d s h h0 h1 hr⟩))
      | error e =>
        exact Or.inr (Or.inr (Or.inr (Or.inl
          ⟨e, submitSteps_retry_thrown net w e0 d e h h0 h1 hr⟩)))
    | error e =>
      exact Or.inr (Or.inr (Or.inr (Or.inr ⟨e, submitSteps_both_fail net w e0 e h h0 h1⟩)))

theorem isTyping_msg (who text : String) : isTyping ⟨"", "chatmsg " ++ who, text⟩ = false := by
  simp [isTyping]

/-! ## The submission flow -/

/-- C1: when the message field trims to the empty string, the submit handler
performs no operation at all: it issues no request and the widget (chat log,
message field, send control, typing indicator) is left exactly as it was. -/
theorem submit_blank_no_effect (net : Net) (w : Widget) (h : trim w.msgInput = "") :
    submitSteps net w = [] ∧ requests (submitSteps net w) = [] ∧
      submitHandler net w = w := by
  have hs := submitSteps_blank net w h
  simp [submitHandler, hs, requests]

/-- C1 at a whitespace-only message. -/
theorem submit_blank_no_effect_witness :
    trim (idleWidget "Alice" " \t \n").msgInput = "" ∧
      submitSteps (netReply "hi") (idleWidget "Alice" " \t \n") = [] ∧
      requests (submitSteps (netReply "hi") (idleWidget "Alice" " \t \n")) = [] ∧
      submitHandler (netReply "hi") (idleWidget "Alice" " \t \n") = idleWidget "Alice" " \t \n" :=
  ⟨by decide, submit_blank_no_effect (netReply "hi") (idleWidget "Alice" " \t \n") (by decide)⟩

/-- C2: when the message field trims to a non-empty `t`, the operations
performed before the first request append to the log one entry of class
`chatmsg you` with text `t` (followed only by the typing indicator, when the
log held none), leave the earlier entries as they were, and empty the message
field. -/
theorem submit_appends_user_message (net : Net) (w : Widget) (t : String)
    (ht : trim w.msgInput = t) (hne : t ≠ "") :
    ∃ pre post req, submitSteps net w = pre ++ Step.fetch req :: post ∧
      requests pre = [] ∧
      (exec pre w).chatbox =
        w.chatbox ++ ⟨"", "chatmsg you", t⟩ ::
          (if (w.chatbox.find? isTyping).isNone
           then [⟨"typing-ind", "chatmsg bot", "… mengetik"⟩] else []) ∧
      (exec pre w).msgInput = "" := by
  subst ht
  have key : (exec [.addMsg (trim w.msgInput) "you", .setMsgValue "", .setBusy true,
        .setTyping true] w).chatbox =
        w.chatbox ++ ⟨"", "chatmsg you", trim w.msgInput⟩ ::
          (if (w.chatbox.find? isTyping).isNone
           then [⟨"typing-ind", "chatmsg bot", "… mengetik"⟩] else []) ∧
      (exec [.addMsg (trim w.msgInput) "you", .setMsgValue "", .setBusy true,
        .setTyping true] w).msgInput = "" := by
    simp only [exec_cons, exec_nil, Step.apply, setTyping_msgInput, setBusy_msgInput,
      setTyping_true_chatbox, setBusy_chatbox, addMsg]
    refine ⟨?_, trivial⟩
    have hfind : ((w.chatbox ++ [(⟨"", "chatmsg " ++ "you", trim w.msgInput⟩ : Elem)]).find?
        isTyping).isNone = (w.chatbox.find? isTyping).isNone := by
      rw [List.find?_append]
      cases w.chatbox.find? isTyping with
      | some a => rfl
      | none => simp [isTyping]
    rw [hfind]
    cases (w.chatbox.find? isTyping).isNone <;> simp
  rcases submitSteps_cases net w hne with ⟨s, hs⟩ | ⟨e, hs⟩ | ⟨s, hs⟩ | ⟨e, hs⟩ | ⟨e, hs⟩ <;>
    exact ⟨[.addMsg (trim w.msgInput) "you", .setMsgValue "", .setBusy true, .setTyping true], _,
      chatRequest (trim w.msgInput) (resolvedUsername w), hs, rfl, key⟩

/-- C2 at the message `  hello ` on an empty log. -/
theorem submit_appends_user_message_witness :
    trim (idleWidget "" "  hello ").msgInput = "hello" ∧ "hello" ≠ "" ∧
      ∃ pre post req,
        submitSteps (netReply "hi there") (idleWidget "" "  hello ") =
          pre ++ Step.fetch req :: post ∧
        requests pre = [] ∧
        (exec pre (idleWidget "" "  hello ")).chatbox =
          (idleWidget "" "  hello ").chatbox ++ ⟨"", "chatmsg you", "hello"⟩ ::
            (if ((idleWidget "" "  hello ").chatbox.find? isTyping).isNone
             then [⟨"typing-ind", "chatmsg bot", "… mengetik"⟩] else []) ∧
        (exec pre (idleWidget "" "  hello ")).msgInput = "" :=
  ⟨by decide, by decide,
    submit_appends_user_message (netReply "hi there") (idleWidget "" "  hello ") "hello"
      (by decide) (by decide)⟩

theorem resolvedUsername_eq (w : Widget) :
    resolvedUsername w = if trim w.uname = "" then "web-user" else trim w.uname := by
  unfold resolvedUsername
  by_cases h : trim w.uname = ""
  · rw [if_pos h, (truthyStr_eq_false_iff _).2 h]; rfl
  · rw [if_neg h, (truthyStr_eq_true_iff _).2 h]; rfl

/-- C3: for a submission whose message trims to a non-empty `t`, at least one
request is issued and every request issued is a `POST` to `/api/chat` with
header `Content-Type: application/json` whose body is
`JSON.stringify` of the object with `text = t` and `username` the trimmed
username field, or `web-user` when that is empty. -/
theorem requests_post_text_and_username (net : Net) (w : Widget) (t : String)
    (ht : trim w.msgInput = t) (hne : t ≠ "") :
    requests (submitSteps net w) ≠ [] ∧
    ∀ req ∈ requests (submitSteps net w),
      req.method = "POST" ∧ req.url = "/api/chat" ∧
      req.headers = [("Content-Type", "application/json")] ∧
      req.body = stringifyBody t (if trim w.uname = "" then "web-user" else trim w.uname) := by
  subst ht
  rw [← resolvedUsername_eq]
  rcases submitSteps_cases net w hne with ⟨s, hs⟩ | ⟨e, hs⟩ | ⟨s, hs⟩ | ⟨e, hs⟩ | ⟨e, hs⟩ <;>
    rw [hs] <;> simp [requests, chatRequest]

/-- C3 at message `hello` and an empty username field: the body is the literal of the example. -/
theorem requests_post_text_and_username_witness :
    trim (idleWidget "" "hello").msgInput = "hello" ∧ "hello" ≠ "" ∧
    requests (submitSteps (netReply "hi there") (idleWidget "" "hello")) ≠ [] ∧
    ∀ req ∈ requests (submitSteps (netReply "hi there") (idleWidget "" "hello")),
      req.method = "POST" ∧ req.url = "/api/chat" ∧
      req.headers = [("Content-Type", "application/json")] ∧
      req.body = "\x7b\"text\":\"hello\",\"username\":\"web-user\"\x7d" :=
  ⟨by decide, by decide,
    requests_post_text_and_username (netReply "hi there") (idleWidget "" "hello") "hello"
      (by decide) (by decide)⟩

theorem eraseP_typing_append_msg (log : List Elem) (e : Elem) (he : isTyping e = false) :
    (log ++ [e]).eraseP isTyping = log.eraseP isTyping ++ [e] := by
  by_cases h : ∃ a ∈ log, isTyping a = true
  · obtain ⟨a, ha, hta⟩ := h
    exact List.eraseP_append_left hta _ ha
  · have hno : ∀ a ∈ log, ¬ isTyping a = true := fun a ha hta => h ⟨a, ha, hta⟩
    rw [List.eraseP_append_right _ hno, List.eraseP_of_forall_not hno]
    simp [List.eraseP, he]

/-- The chat log at the end of a run that renders `r` as the bot message. -/
theorem chatbox_final (w : Widget) (t r : String) :
    (setBusy false (addMsg r "bot" (setTyping false (setTyping true (setBusy true
      { addMsg t "you" w with msgInput := "" }))))).chatbox =
      w.chatbox.eraseP isTyping ++ [⟨"", "chatmsg you", t⟩, ⟨"", "chatmsg bot", r⟩] := by
  rw [setBusy_chatbox]
  unfold addMsg
  simp only
  rw [chatbox_show_hide _ w.chatbox ⟨"", "chatmsg " ++ "you", t⟩ (by simp) (isTyping_msg "you" t)]
  simp

/-- The chat log at the end of a run in which the indicator is hidden twice
before `r` is rendered as the bot message. -/
theorem chatbox_final_thrown (w : Widget) (t r : String) :
    (setBusy false (addMsg r "bot" (setTyping false (setTyping false (setTyping true
      (setBusy true { addMsg t "you" w with msgInput := "" })))))).chatbox =
      (w.chatbox.eraseP isTyping).eraseP isTyping ++
        [⟨"", "chatmsg you", t⟩, ⟨"", "chatmsg bot", r⟩] := by
  rw [setBusy_chatbox]
  unfold addMsg
  simp only
  rw [setTyping_false_chatbox,
    chatbox_show_hide _ w.chatbox ⟨"", "chatmsg " ++ "you", t⟩ (by simp) (isTyping_msg "you" t),
    eraseP_typing_append_msg _ _ (isTyping_msg "you" t)]
  simp

theorem reply_some_truthy (d r : JSON) (h : d.reply = some r) : d.truthy = true := by
  cases d <;> simp [JSON.reply] at h
  rfl

theorem replyText_str (d : JSON) (r : String) (h : d.reply = some (.str r)) (hr : r ≠ "") :
    replyText d = .ok r := by
  unfold replyText
  rw [reply_some_truthy d _ h, h]
  simp [JSON.truthy, JSON.toText, (truthyStr_eq_true_iff r).2 hr]

theorem replyText_empty (d : JSON) (h : d.reply = some (.str "")) :
    replyText d = .ok "(tidak ada jawaban)" := by
  unfold replyText
  rw [reply_some_truthy d _ h, h]
  simp [JSON.truthy, (truthyStr_eq_false_iff "").2 rfl]

theorem replyText_absent (d : JSON) (h : d.reply = none) :
    replyText d = .ok "(tidak ada jawaban)" := by
  simp [replyText, h]

/-- A conversion error can only come from converting a truthy `reply`
value. -/
theorem replyText_error (d : JSON) (e : JSError) (h : replyText d = .error e) :
    ∃ r, d.reply = some r ∧ r.truthy = true ∧ r.toText = .error e := by
  unfold replyText at h
  cases hd : d.truthy with
  | false => simp [hd] at h
  | true =>
    cases hr : d.reply with
    | none => simp [hd, hr] at h
    | some r =>
      cases ht : r.truthy with
      | false => simp [hd, hr, ht] at h
      | true => exact ⟨r, rfl, ht, by simpa [hd, hr, ht] using h⟩

/-- C4, as the code has it: when the first request fails (rejected fetch,
non-success status or unparseable body) and the retry succeeds with parsed
body `d`, exactly two requests are issued, both the same request, and exactly
one bot message is appended. Its text is the reply text of `d` whenever the
reply converts to text, which it always does when `d` has no `reply` field or
a string one; when the conversion of a non-string `reply` throws, its text is
the fixed failure text. -/
theorem retry_success_single_reply (net : Net) (w : Widget) (t : String) (d : JSON)
    (ht : trim w.msgInput = t) (hne : t ≠ "")
    (h0 : (net 0 (chatRequest t (resolvedUsername w))).failed = true)
    (h1 : (net 1 (chatRequest t (resolvedUsername w))).succeedsWith d) :
    requests (submitSteps net w) =
      [chatRequest t (resolvedUsername w), chatRequest t (resolvedUsername w)] ∧
    (∀ s, replyText d = .ok s →
      (submitSteps net w).filter Step.isBotMsg = [.addMsg s "bot"] ∧
      (submitHandler net w).chatbox =
        w.chatbox.eraseP isTyping ++ [⟨"", "chatmsg you", t⟩, ⟨"", "chatmsg bot", s⟩]) ∧
    (∀ e, replyText d = .error e →
      (∃ r, d.reply = some r ∧ r.truthy = true ∧ r.toText = .error e) ∧
      (submitSteps net w).filter Step.isBotMsg =
        [.addMsg "Gagal menghubungi server. Coba lagi sebentar ya." "bot"] ∧
      (submitHandler net w).chatbox =
        (w.chatbox.eraseP isTyping).eraseP isTyping ++
          [⟨"", "chatmsg you", t⟩,
           ⟨"", "chatmsg bot", "Gagal menghubungi server. Coba lagi sebentar ya."⟩]) ∧
    ((d.reply = none ∨ ∃ r, d.reply = some (.str r)) → ∃ s, replyText d = .ok s) := by
  subst ht
  obtain ⟨e0, he0⟩ := sendOnce_error_of_failed net 0 _ _ h0
  have hd := sendOnce_ok_of_succeedsWith net 1 _ _ d h1
  refine ⟨?_, fun s hr => ?_, fun e hr => ?_, fun hcase => ?_⟩
  · cases hr : replyText d with
    | ok s => rw [submitSteps_retry_ok net w e0 d s hne he0 hd hr]; rfl
    | error e => rw [submitSteps_retry_thrown net w e0 d e hne he0 hd hr]; rfl
  · have hs := submitSteps_retry_ok net w e0 d s hne he0 hd hr
    refine ⟨by rw [hs]; simp [List.filter, Step.isBotMsg], ?_⟩
    rw [submitHandler, hs]
    simp only [exec_cons, exec_nil, Step.apply]
    exact chatbox_final w (trim w.msgInput) s
  · have hs := submitSteps_retry_thrown net w e0 d e hne he0 hd hr
    refine ⟨replyText_error d e hr, by rw [hs]; simp [List.filter, Step.isBotMsg], ?_⟩
    rw [submitHandler, hs]
    simp only [exec_cons, exec_nil, Step.apply]
    exact chatbox_final_thrown w (trim w.msgInput) _
  · rcases hcase with hnone | ⟨r, hr⟩
    · exact ⟨_, replyText_absent d hnone⟩
    · by_cases hre : r = ""
      · subst hre; exact ⟨_, replyText_empty d hr⟩
      · exact ⟨_, replyText_str d r hr hre⟩

/-- C4 on a server that fails once and then replies `hi there`. -/
theorem retry_success_single_reply_witness :
    trim (idleWidget "" "hello").msgInput = "hello" ∧ "hello" ≠ "" ∧
    requests (submitSteps (netFlaky "hi there") (idleWidget "" "hello")) =
      [chatRequest "hello" "web-user", chatRequest "hello" "web-user"] ∧
    (submitSteps (netFlaky "hi there") (idleWidget "" "hello")).filter Step.isBotMsg =
      [.addMsg "hi there" "bot"] ∧
    (submitHandler (netFlaky "hi there") (idleWidget "" "hello")).chatbox =
      [⟨"", "chatmsg you", "hello"⟩, ⟨"", "chatmsg bot", "hi there"⟩] :=
  ⟨by decide, by decide,
    (retry_success_single_reply (netFlaky "hi there") (idleWidget "" "hello") "hello"
      (.obj [("reply", .str "hi there")]) (by decide) (by decide) (by decide) ⟨rfl, rfl⟩).1,
    (retry_success_single_reply (netFlaky "hi there") (idleWidget "" "hello") "hello"
      (.obj [("reply", .str "hi there")]) (by decide) (by decide) (by decide) ⟨rfl, rfl⟩).2.1
      "hi there" rfl⟩

/-- C4, as stated, fails when the retry succeeds with a body whose `reply` is
an object with its own `toString` member: the conversion to text throws, and
the one bot message carries the failure text, not a text resolved from the
body. -/
theorem retry_reply_conversion_throws :
    ((netRetryBody (.obj [("reply", .obj [("toString", .num false "1")])])) 0
      (chatRequest "hello" "web-user")).failed = true ∧
    ((netRetryBody (.obj [("reply", .obj [("toString", .num false "1")])])) 1
      (chatRequest "hello" "web-user")).succeedsWith
        (.obj [("reply", .obj [("toString", .num false "1")])]) ∧
    (JSON.obj [("reply", .obj [("toString", .num false "1")])]).reply =
      some (.obj [("toString", .num false "1")]) ∧
    (submitHandler (netRetryBody (.obj [("reply", .obj [("toString", .num false "1")])]))
      (idleWidget "" "hello")).chatbox =
      [⟨"", "chatmsg you", "hello"⟩,
       ⟨"", "chatmsg bot", "Gagal menghubungi server. Coba lagi sebentar ya."⟩] :=
  ⟨by decide, ⟨rfl, rfl⟩, rfl, by decide⟩

/-- C5: when the first request and the retry both fail, exactly two requests
are issued (there is no third), exactly one bot message is appended, and its
text is the fixed failure text, whatever the responses and errors were. -/
theorem double_failure_fixed_text (net : Net) (w : Widget) (t : String)
    (ht : trim w.msgInput = t) (hne : t ≠ "")
    (h0 : (net 0 (chatRequest t (resolvedUsername w))).failed = true)
    (h1 : (net 1 (chatRequest t (resolvedUsername w))).failed = true) :
    requests (submitSteps net w) =
      [chatRequest t (resolvedUsername w), chatRequest t (resolvedUsername w)] ∧
    (submitSteps net w).filter Step.isBotMsg =
      [.addMsg "Gagal menghubungi server. Coba lagi sebentar ya." "bot"] ∧
    (submitHandler net w).chatbox =
      w.chatbox.eraseP isTyping ++
        [⟨"", "chatmsg you", t⟩,
         ⟨"", "chatmsg bot", "Gagal menghubungi server. Coba lagi sebentar ya."⟩] := by
  subst ht
  obtain ⟨e, he⟩ := sendOnce_error_of_failed net 0 _ _ h0
  obtain ⟨e', he'⟩ := sendOnce_error_of_failed net 1 _ _ h1
  have hs := submitSteps_both_fail net w e e' hne he he'
  refine ⟨by rw [hs]; rfl, by rw [hs]; simp [List.filter, Step.isBotMsg], ?_⟩
  rw [submitHandler, hs]
  simp only [exec_cons, exec_nil, Step.apply]
  exact chatbox_final w (trim w.msgInput) _

/-- C5 on a network that refuses every request. -/
theorem double_failure_fixed_text_witness :
    trim (idleWidget "" "hello").msgInput = "hello" ∧ "hello" ≠ "" ∧
    requests (submitSteps netDown (idleWidget "" "hello")) =
      [chatRequest "hello" "web-user", chatRequest "hello" "web-user"] ∧
    (submitSteps netDown (idleWidget "" "hello")).filter Step.isBotMsg =
      [.addMsg "Gagal menghubungi server. Coba lagi sebentar ya." "bot"] ∧
    (submitHandler netDown (idleWidget "" "hello")).chatbox =
      [⟨"", "chatmsg you", "hello"⟩,
       ⟨"", "chatmsg bot", "Gagal menghubungi server. Coba lagi sebentar ya."⟩] :=
  ⟨by decide, by decide,
    double_failure_fixed_text netDown (idleWidget "" "hello") "hello"
      (by decide) (by decide) (by decide) (by decide)⟩

/-! ## The reply text -/

/-- The chat log after a submission that succeeds with a body whose reply
converts to the text `s`. -/
theorem chatbox_of_success (net : Net) (w : Widget) (d : JSON) (s : String)
    (hne : trim w.msgInput ≠ "")
    (hs : (net 0 (chatRequest (trim w.msgInput) (resolvedUsername w))).succeedsWith d ∨
      ((net 0 (chatRequest (trim w.msgInput) (resolvedUsername w))).failed = true ∧
        (net 1 (chatRequest (trim w.msgInput) (resolvedUsername w))).succeedsWith d))
    (hr : replyText d = .ok s) :
    (submitHandler net w).chatbox =
      w.chatbox.eraseP isTyping ++
        [⟨"", "chatmsg you", trim w.msgInput⟩, ⟨"", "chatmsg bot", s⟩] := by
  rcases hs with h0 | ⟨h0, h1⟩
  · have hd := sendOnce_ok_of_succeedsWith net 0 _ _ d h0
    rw [submitHandler, submitSteps_first_ok net w d s hne hd hr]
    simp only [exec_cons, exec_nil, Step.apply]
    exact chatbox_final w (trim w.msgInput) s
  · obtain ⟨e, he⟩ := sendOnce_error_of_failed net 0 _ _ h0
    have hd := sendOnce_ok_of_succeedsWith net 1 _ _ d h1
    rw [submitHandler, submitSteps_retry_ok net w e d s hne he hd hr]
    simp only [exec_cons, exec_nil, Step.apply]
    exact chatbox_final w (trim w.msgInput) s

/-- C6, as the code has it: for a submission that succeeds with parsed body
`d` (at the first attempt, or at the retry after a failed first attempt), the
bot message appended has text `r` when `d` has a `reply` field holding a
non-empty string `r`, and the placeholder `(tidak ada jawaban)` when `d` has
no `reply` field or the field holds the empty string. -/
theorem success_reply_text (net : Net) (w : Widget) (t : String) (d : JSON)
    (ht : trim w.msgInput = t) (hne : t ≠ "")
    (hs : (net 0 (chatRequest t (resolvedUsername w))).succeedsWith d ∨
      ((net 0 (chatRequest t (resolvedUsername w))).failed = true ∧
        (net 1 (chatRequest t (resolvedUsername w))).succeedsWith d)) :
    (∀ r : String, d.reply = some (.str r) → r ≠ "" →
      (submitHandler net w).chatbox =
        w.chatbox.eraseP isTyping ++
          [⟨"", "chatmsg you", t⟩, ⟨"", "chatmsg bot", r⟩]) ∧
    (d.reply = some (.str "") ∨ d.reply = none →
      (submitHandler net w).chatbox =
        w.chatbox.eraseP isTyping ++
          [⟨"", "chatmsg you", t⟩, ⟨"", "chatmsg bot", "(tidak ada jawaban)"⟩]) := by
  subst ht
  refine ⟨fun r hr hrne => ?_, fun hcase => ?_⟩
  · exact chatbox_of_success net w d r hne hs (replyText_str d r hr hrne)
  · rcases hcase with hempty | hnone
    · exact chatbox_of_success net w d _ hne hs (replyText_empty d hempty)
    · exact chatbox_of_success net w d _ hne hs (replyText_absent d hnone)

/-- C6 at the reply `hi there`. -/
theorem success_reply_text_witness :
    trim (idleWidget "" "hello").msgInput = "hello" ∧ "hello" ≠ "" ∧
    (submitHandler (netReply "hi there") (idleWidget "" "hello")).chatbox =
      [⟨"", "chatmsg you", "hello"⟩, ⟨"", "chatmsg bot", "hi there"⟩] :=
  ⟨by decide, by decide,
    (success_reply_text (netReply "hi there") (idleWidget "" "hello") "hello"
      (.obj [("reply", .str "hi there")]) (by decide) (by decide) (Or.inl ⟨rfl, rfl⟩)).1
      "hi there" rfl (by decide)⟩

/-- C6, as stated, fails for the empty reply: a successful response whose
`reply` field is the empty string is rendered as the placeholder, not as the
empty string. -/
theorem empty_reply_renders_placeholder :
    (JSON.obj [("reply", .str "")]).reply = some (.str "") ∧
    replyText (.obj [("reply", .str "")]) = .ok "(tidak ada jawaban)" ∧
    "(tidak ada jawaban)" ≠ "" ∧
    (submitHandler (netReply "") (idleWidget "" "hello")).chatbox =
      [⟨"", "chatmsg you", "hello"⟩, ⟨"", "chatmsg bot", "(tidak ada jawaban)"⟩] :=
  ⟨rfl, rfl, by decide, by decide⟩

/-! ## The send control -/

@[simp] theorem addMsg_submitBtn (text who : String) (w : Widget) :
    (addMsg text who w).submitBtn = w.submitBtn := rfl

theorem setBusy_true_submitBtn (w : Widget) (b : Button) (hb : w.submitBtn = some b) :
    (setBusy true w).submitBtn = some ⟨true, "Mengirim…", some b.textContent⟩ := by
  simp [setBusy, hb]

theorem setBusy_false_submitBtn (w : Widget) (b : Button) (hb : w.submitBtn = some b) :
    (setBusy false w).submitBtn =
      some (match b.dataOld with
        | some old => if truthyStr old then ⟨false, old, none⟩ else ⟨false, b.textContent, some old⟩
        | none => ⟨false, b.textContent, none⟩) := by
  unfold setBusy
  rw [hb]
  cases hd : b.dataOld with
  | none => simp [hd]
  | some old => cases ht : truthyStr old <;> simp [hd, ht]

/-- Leaving the busy state that was entered with the control `b`. -/
theorem setBusy_false_after_busy (x : Widget) (b : Button)
    (hx : x.submitBtn = some ⟨true, "Mengirim…", some b.textContent⟩) :
    (setBusy false x).submitBtn =
      some (if truthyStr b.textContent then ⟨false, b.textContent, none⟩
        else ⟨false, "Mengirim…", some b.textContent⟩) := by
  rw [setBusy_false_submitBtn _ _ hx]

/-- The send control at the end of any run with non-empty text. -/
theorem submitHandler_submitBtn (net : Net) (w : Widget) (b : Button)
    (hne : trim w.msgInput ≠ "") (hb : w.submitBtn = some b) :
    (submitHandler net w).submitBtn =
      some (if truthyStr b.textContent then ⟨false, b.textContent, none⟩
        else ⟨false, "Mengirim…", some b.textContent⟩) := by
  have h1 := setBusy_true_submitBtn { addMsg (trim w.msgInput) "you" w with msgInput := "" } b hb
  rcases submitSteps_cases net w hne with ⟨s, hs⟩ | ⟨e, hs⟩ | ⟨s, hs⟩ | ⟨e, hs⟩ | ⟨e, hs⟩ <;>
    rw [submitHandler, hs] <;>
    simp only [exec_cons, exec_nil, Step.apply] <;>
    exact setBusy_false_after_busy _ b
      (by simp only [addMsg_submitBtn, setTyping_submitBtn]; exact h1)

/-- C7, as the code has it: for every non-empty label `L` of the send
control, on every outcome path of a submission with non-empty text the
control ends enabled with label `L` and no saved label; likewise
`setBusy(true)` followed by `setBusy(false)` restores every non-empty
label. -/
theorem busy_round_trip_restores_label (net : Net) (w : Widget) (b : Button) (t L : String)
    (hb : w.submitBtn = some b) (hL : b.textContent = L) (hLne : L ≠ "")
    (ht : trim w.msgInput = t) (hne : t ≠ "") :
    (submitHandler net w).submitBtn = some ⟨false, L, none⟩ ∧
    (setBusy false (setBusy true w)).submitBtn = some ⟨false, L, none⟩ := by
  subst ht hL
  constructor
  · rw [submitHandler_submitBtn net w b hne hb, (truthyStr_eq_true_iff _).2 hLne]
    rfl
  · rw [setBusy_false_submitBtn _ _ (setBusy_true_submitBtn w b hb)]
    simp [(truthyStr_eq_true_iff _).2 hLne]

/-- C7 at the label `Kirim`, on the failure path. -/
theorem busy_round_trip_restores_label_witness :
    (labelledWidget "Kirim" "hello").submitBtn = some ⟨false, "Kirim", none⟩ ∧
    "Kirim" ≠ "" ∧ trim (labelledWidget "Kirim" "hello").msgInput = "hello" ∧ "hello" ≠ "" ∧
    (submitHandler netDown (labelledWidget "Kirim" "hello")).submitBtn =
      some ⟨false, "Kirim", none⟩ ∧
    (setBusy false (setBusy true (labelledWidget "Kirim" "hello"))).submitBtn =
      some ⟨false, "Kirim", none⟩ :=
  ⟨rfl, by decide, by decide, by decide,
    busy_round_trip_restores_label netDown (labelledWidget "Kirim" "hello")
      ⟨false, "Kirim", none⟩ "hello" "Kirim" rfl rfl (by decide) (by decide) (by decide)⟩

/-- C7, as stated, fails for the empty label: a send control whose label is
the empty string ends a submission labelled `Mengirim…`, with the saved
(empty) label still in place. -/
theorem empty_label_not_restored :
    (labelledWidget "" "hello").submitBtn = some ⟨false, "", none⟩ ∧
    (submitHandler (netReply "hi there") (labelledWidget "" "hello")).submitBtn =
      some ⟨false, "Mengirim…", some ""⟩ ∧
    (setBusy false (setBusy true (labelledWidget "" "hello"))).submitBtn =
      some ⟨false, "Mengirim…", some ""⟩ := by
  decide

@[simp] theorem disabledFlag_addMsg (text who : String) (w : Widget) :
    disabledFlag (addMsg text who w) = disabledFlag w := rfl

@[simp] theorem disabledFlag_setTyping (isOn : Bool) (w : Widget) :
    disabledFlag (setTyping isOn w) = disabledFlag w := by
  simp [disabledFlag]

theorem disabledFlag_setBusy (busy : Bool) (w : Widget) (c : Bool)
    (h : disabledFlag w = some c) : disabledFlag (setBusy busy w) = some busy := by
  unfold disabledFlag at *
  cases hb : w.submitBtn with
  | none => simp [hb] at h
  | some b =>
    cases busy with
    | true => simp [setBusy_true_submitBtn w b hb]
    | false =>
      rw [setBusy_false_submitBtn w b hb]
      cases hd : b.dataOld with
      | none => simp
      | some old => cases ht : truthyStr old <;> simp [ht]

/-- C8: for a submission with non-empty text, on every outcome path the send
control is disabled in every state from the one in which the first request
is issued up to the one in which the bot message (reply or failure text) has
been appended, and it is enabled when the handler has finished. -/
theorem send_control_disabled_while_in_flight (net : Net) (w : Widget) (b : Button) (t : String)
    (hb : w.submitBtn = some b) (ht : trim w.msgInput = t) (hne : t ≠ "") :
    (submitSteps net w).findIdx Step.isFetch < (submitSteps net w).findIdx Step.isBotMsg ∧
    (submitSteps net w).findIdx Step.isBotMsg < (submitSteps net w).length ∧
    (∀ k, (submitSteps net w).findIdx Step.isFetch ≤ k →
      k ≤ (submitSteps net w).findIdx Step.isBotMsg + 1 →
      disabledFlag (exec ((submitSteps net w).take k) w) = some true) ∧
    disabledFlag (submitHandler net w) = some false := by
  subst ht
  have hflag : disabledFlag w = some b.disabled := by simp [disabledFlag, hb]
  have h1 : disabledFlag (setBusy true { addMsg (trim w.msgInput) "you" w with msgInput := "" })
      = some true := disabledFlag_setBusy true _ b.disabled hflag
  rcases submitSteps_cases net w hne with ⟨s, hs⟩ | ⟨e, hs⟩ | ⟨s, hs⟩ | ⟨e, hs⟩ | ⟨e, hs⟩ <;>
    rw [submitHandler, hs] <;>
    refine ⟨by simp [List.findIdx_cons, Step.isFetch, Step.isBotMsg],
      by simp [List.findIdx_cons, Step.isFetch, Step.isBotMsg], fun k hk1 hk2 => ?_, ?_⟩
  all_goals first
    | (simp [List.findIdx_cons, Step.isFetch, Step.isBotMsg] at hk1 hk2
       interval_cases k <;>
         simp only [List.take, exec_cons, exec_nil, Step.apply, disabledFlag_addMsg,
           disabledFlag_setTyping] <;>
         exact h1)
    | (simp only [exec_cons, exec_nil, Step.apply]
       exact disabledFlag_setBusy false _ true
         (by simp only [disabledFlag_addMsg, disabledFlag_setTyping]; exact h1))

/-- C8 on the retry path. -/
theorem send_control_disabled_while_in_flight_witness :
    (idleWidget "" "hello").submitBtn = some ⟨false, "Kirim", none⟩ ∧
    trim (idleWidget "" "hello").msgInput = "hello" ∧ "hello" ≠ "" ∧
    (submitSteps (netFlaky "hi") (idleWidget "" "hello")).findIdx Step.isFetch <
      (submitSteps (netFlaky "hi") (idleWidget "" "hello")).findIdx Step.isBotMsg ∧
    (submitSteps (netFlaky "hi") (idleWidget "" "hello")).findIdx Step.isBotMsg <
      (submitSteps (netFlaky "hi") (idleWidget "" "hello")).length ∧
    (∀ k, (submitSteps (netFlaky "hi") (idleWidget "" "hello")).findIdx Step.isFetch ≤ k →
      k ≤ (submitSteps (netFlaky "hi") (idleWidget "" "hello")).findIdx Step.isBotMsg + 1 →
      disabledFlag (exec ((submitSteps (netFlaky "hi") (idleWidget "" "hello")).take k)
        (idleWidget "" "hello")) = some true) ∧
    disabledFlag (submitHandler (netFlaky "hi") (idleWidget "" "hello")) = some false :=
  ⟨rfl, by decide, by decide,
    send_control_disabled_while_in_flight (netFlaky "hi") (idleWidget "" "hello")
      ⟨false, "Kirim", none⟩ "hello" rfl (by decide) (by decide)⟩

/-! ## The typing indicator -/

theorem typingCount_append (xs ys : List Elem) :
    typingCount (xs ++ ys) = typingCount xs + typingCount ys := by
  simp [typingCount, List.countP_append]

theorem typingCount_eraseP (log : List Elem) :
    typingCount (log.eraseP isTyping) = typingCount log - 1 := by
  induction log with
  | nil => rfl
  | cons a rest ih =>
    cases ha : isTyping a with
    | true => simp [typingCount, List.eraseP_cons, List.countP_cons, ha]
    | false =>
      simp only [typingCount] at ih
      simp [typingCount, List.eraseP_cons, List.countP_cons, ha, ih]

theorem find_isNone_iff_count (log : List Elem) :
    (log.find? isTyping).isNone = true ↔ typingCount log = 0 := by
  rw [Option.isNone_iff_eq_none, List.find?_eq_none, typingCount, List.countP_eq_zero]

theorem typingCount_addMsg (text who : String) (w : Widget) :
    typingCount (addMsg text who w).chatbox = typingCount w.chatbox := by
  simp [addMsg, typingCount_append, typingCount, List.countP_cons, isTyping]

theorem typingCount_setTyping_true (w : Widget) :
    typingCount (setTyping true w).chatbox =
      if typingCount w.chatbox = 0 then 1 else typingCount w.chatbox := by
  rw [setTyping_true_chatbox]
  by_cases h : typingCount w.chatbox = 0
  · rw [if_pos ((find_isNone_iff_count _).2 h), if_pos h, typingCount_append, h]
    rfl
  · have h' : ¬ (w.chatbox.find? isTyping).isNone = true := fun hc =>
      h ((find_isNone_iff_count _).1 hc)
    rw [if_neg h', if_neg h]

theorem typingCount_setTyping_false (w : Widget) :
    typingCount (setTyping false w).chatbox = typingCount w.chatbox - 1 := by
  rw [setTyping_false_chatbox, typingCount_eraseP]

theorem setTyping_true_of_present (w : Widget) (h : 1 ≤ typingCount w.chatbox) :
    setTyping true w = w := by
  have h' : ¬ (w.chatbox.find? isTyping).isNone = true := fun hc => by
    have := (find_isNone_iff_count _).1 hc
    omega
  simp [setTyping, h']

/-- Every operation keeps the number of typing indicators at most one. -/
theorem step_keeps_at_most_one (s : Step) (w : Widget) (h : typingCount w.chatbox ≤ 1) :
    typingCount (s.apply w).chatbox ≤ 1 := by
  cases s with
  | addMsg text who => simpa [Step.apply, typingCount_addMsg] using h
  | setMsgValue v => exact h
  | setBusy busy => simpa [Step.apply] using h
  | setTyping isOn =>
    cases isOn with
    | true =>
      simp only [Step.apply, typingCount_setTyping_true]
      split <;> omega
    | false =>
      simp only [Step.apply, typingCount_setTyping_false]
      omega
  | fetch req => exact h
  | consoleError err => exact h
  | focusMsg => exact h

theorem exec_keeps_at_most_one (steps : List Step) (w : Widget)
    (h : typingCount w.chatbox ≤ 1) : typingCount (exec steps w).chatbox ≤ 1 := by
  induction steps generalizing w with
  | nil => exact h
  | cons s rest ih => exact ih _ (step_keeps_at_most_one s w h)

/-- C9: starting from a chat log with at most one typing indicator, `addMsg`,
`setTyping(true)` and `setTyping(false)` yield a log with at most one, and so
does every state reached in the course of the submit handler, on any outcome
path; `setTyping(true)` on a log that holds an indicator changes nothing, and
`setTyping(false)` leaves a log with none. -/
theorem at_most_one_typing_indicator (w : Widget) (h : typingCount w.chatbox ≤ 1) :
    (∀ text who, typingCount (addMsg text who w).chatbox ≤ 1) ∧
    typingCount (setTyping true w).chatbox ≤ 1 ∧
    typingCount (setTyping false w).chatbox = 0 ∧
    (typingCount w.chatbox = 1 → setTyping true w = w) ∧
    (∀ net k, typingCount (exec ((submitSteps net w).take k) w).chatbox ≤ 1) ∧
    (∀ net, typingCount (submitHandler net w).chatbox ≤ 1) := by
  refine ⟨fun text who => ?_, ?_, ?_, fun h1 => ?_, fun net k => ?_, fun net => ?_⟩
  · rw [typingCount_addMsg]; exact h
  · exact step_keeps_at_most_one (.setTyping true) w h
  · rw [typingCount_setTyping_false]; omega
  · exact setTyping_true_of_present w (by omega)
  · exact exec_keeps_at_most_one _ w h
  · exact exec_keeps_at_most_one _ w h

/-- C9 at a log that already holds the indicator. -/
theorem at_most_one_typing_indicator_witness :
    typingCount (setTyping true (idleWidget "" "hello")).chatbox ≤ 1 ∧
    (∀ text who,
      typingCount (addMsg text who (setTyping true (idleWidget "" "hello"))).chatbox ≤ 1) ∧
    typingCount (setTyping true (setTyping true (idleWidget "" "hello"))).chatbox ≤ 1 ∧
    typingCount (setTyping false (setTyping true (idleWidget "" "hello"))).chatbox = 0 ∧
    (typingCount (setTyping true (idleWidget "" "hello")).chatbox = 1 →
      setTyping true (setTyping true (idleWidget "" "hello")) =
        setTyping true (idleWidget "" "hello")) ∧
    (∀ net k, typingCount (exec ((submitSteps net (setTyping true (idleWidget "" "hello"))).take k)
      (setTyping true (idleWidget "" "hello"))).chatbox ≤ 1) ∧
    (∀ net, typingCount (submitHandler net (setTyping true (idleWidget "" "hello"))).chatbox ≤ 1) :=
  ⟨by decide, at_most_one_typing_indicator (setTyping true (idleWidget "" "hello")) (by decide)⟩

/-! ## The stored username -/

theorem changeHandler_eq (ls : LocalStorage) (w : Widget) :
    changeHandler ls w =
      .ok (match ls.setFault with
        | some _ => ls
        | none =>
          { ls with
            items := ("sebayu_name", trim w.uname) ::
                      ls.items.filter (fun kv => kv.1 != "sebayu_name") }) := by
  unfold changeHandler LocalStorage.setItem
  cases ls.setFault <;> rfl

theorem init_eq (ls : LocalStorage) (w : Widget) :
    init ls w =
      .ok (match ls.getFault with
        | some _ => { w with msgFocused := true }
        | none =>
          match ls.items.lookup "sebayu_name" with
          | some name =>
            if truthyStr name then { w with uname := name, msgFocused := true }
            else { w with msgFocused := true }
          | none => { w with msgFocused := true }) := by
  unfold init LocalStorage.getItem
  cases ls.getFault with
  | some err => rfl
  | none =>
    cases ls.items.lookup "sebayu_name" with
    | none => rfl
    | some name =>
      cases hn : truthyStr name with
      | true =>
        simp [hn, tryCatch, tryCatchThe, MonadExcept.tryCatch, Except.tryCatch, bind,
          Except.bind, pure, Except.pure, Functor.map, Except.map]
        rfl
      | false =>
        simp [hn, tryCatch, tryCatchThe, MonadExcept.tryCatch, Except.tryCatch, bind,
          Except.bind, pure, Except.pure, Functor.map, Except.map]
        rfl

/-- C10, as the code has it: the `change` listener and the initialization
never throw. When storage works, the listener stores the trimmed username
under `sebayu_name` and a reload that starts with an empty field ends with
the field equal to the trimmed username. When reading throws, the field is
empty after the reload. When writing throws, the storage is left as it was,
so that after a reload that can read, the field holds the name stored
earlier, and is empty when none was stored. -/
theorem username_round_trip (ls : LocalStorage) (w w0 : Widget) (h0 : w0.uname = "") :
    ∃ ls1 w1, changeHandler ls w = .ok ls1 ∧ init ls1 w0 = .ok w1 ∧
      (ls.setFault = none →
        ls1.items.lookup "sebayu_name" = some (trim w.uname) ∧
        (ls.getFault = none → w1.uname = trim w.uname)) ∧
      (ls.getFault ≠ none → w1.uname = "") ∧
      (ls.setFault ≠ none → ls1 = ls ∧
        (ls.getFault = none → w1.uname = (ls.items.lookup "sebayu_name").getD "")) := by
  refine ⟨_, _, changeHandler_eq ls w, init_eq _ w0, ?_, ?_, ?_⟩
  · intro hs
    have hl : (("sebayu_name", trim w.uname) ::
        ls.items.filter (fun kv => kv.1 != "sebayu_name")).lookup "sebayu_name" =
        some (trim w.uname) := by
      simp [List.lookup]
    refine ⟨by simp only [hs]; exact hl, fun hg => ?_⟩
    simp only [hs, hg, hl]
    by_cases hn : trim w.uname = ""
    · rw [(truthyStr_eq_false_iff _).2 hn, hn]; simpa using h0
    · rw [(truthyStr_eq_true_iff _).2 hn]; rfl
  · intro hg
    cases hgf : ls.getFault with
    | none => exact absurd hgf hg
    | some err => cases ls.setFault <;> simp [hgf, h0]
  · intro hs
    cases hsf : ls.setFault with
    | none => exact absurd hsf hs
    | some err =>
      refine ⟨rfl, fun hg => ?_⟩
      simp only [hg]
      cases hl : ls.items.lookup "sebayu_name" with
      | none => simpa using h0
      | some name =>
        by_cases hn : name = ""
        · simp only [(truthyStr_eq_false_iff _).2 hn, hn]; simpa using h0
        · simp [(truthyStr_eq_true_iff _).2 hn]

/-- C10 at the name `Alice` with working, empty storage. -/
theorem username_round_trip_witness :
    (idleWidget "" "").uname = "" ∧
    ∃ ls1 w1, changeHandler (workingStorage []) (idleWidget "Alice" "") = .ok ls1 ∧
      init ls1 (idleWidget "" "") = .ok w1 ∧ w1.uname = "Alice" :=
  ⟨rfl,
    match username_round_trip (workingStorage []) (idleWidget "Alice" "") (idleWidget "" "")
      rfl with
    | ⟨ls1, w1, h1, h2, h3, _, _⟩ => ⟨ls1, w1, h1, h2, ((h3 rfl).2 rfl).trans (by decide)⟩⟩

/-- C10, as stated, fails when the write throws while a name is already
stored: with `Bob` stored and the write of `Alice` refused, the reload
pre-fills `Bob`, so the field is not empty. -/
theorem write_failure_keeps_stored_name :
    fullStorage.setFault ≠ none ∧ (idleWidget "" "").uname = "" ∧
    unameAfterReload fullStorage (idleWidget "Alice" "") (idleWidget "" "") = .ok "Bob" ∧
    "Bob" ≠ "" :=
  ⟨by decide, rfl, rfl, by decide⟩

end Chat
